import Mathlib

/-!
Verification of the human-in-the-loop email-assistant workflow engine
(`src/email_assistant/email_assistant_tweedekamer.py`) against its
natural-language specification.

The Python module is shallowly embedded: each LangGraph node becomes a pure
Lean function over an explicit conversation state, the external LLM
capabilities (classifier, generator, memory-profile rewriter) and the tool
registry become oracle parameters, and the LangGraph `BaseStore` becomes an
association list threaded through the functions.  Raised `ValueError`s become
`Except.error`.
-/

namespace EmailAssistant

/-- A pending tool invocation carried by an assistant message:
`{"type": "tool_call", "name": ..., "args": ..., "id": ...}`.
Arguments are kept opaque as a single string. -/
structure ToolCall where
  name : String
  args : String
  id : String
deriving Repr, DecidableEq

/-- One turn of the conversation transcript (`state["messages"]`).
Only assistant (`ai`) messages carry a `tool_calls` attribute, matching
LangChain message classes: `hasattr(msg, 'tool_calls')` is true exactly for
`AIMessage`. -/
inductive Msg where
  | user (content : String)
  | system (content : String)
  | tool (name : String) (content : String) (tool_call_id : String)
  | ai (content : String) (tool_calls : List ToolCall)
deriving Repr, DecidableEq

/-- The tool calls carried by a message: empty for non-assistant turns,
which have no `tool_calls` attribute. -/
def Msg.toolCalls : Msg → List ToolCall
  | .ai _ tcs => tcs
  | _ => []

/-- The circuit-breaker count in `llm_call`:
`for msg in state["messages"]: if hasattr(msg, 'tool_calls') and msg.tool_calls:
tool_call_count += len(msg.tool_calls)`. -/
def toolCallCount (messages : List Msg) : Nat :=
  (messages.map (fun m => m.toolCalls.length)).sum

/-- A namespace handed to the LangGraph store, e.g.
`("tweedekamer_assistant", "triage_preferences")`. -/
abbrev MemNamespace := String × String

/-- The LangGraph `BaseStore`, restricted to the string values this module
stores: an association list from (namespace, key) to value. -/
abbrev Store := List ((MemNamespace × String) × String)

/-- `store.get(namespace, key)`. -/
def storeGet : Store → MemNamespace → String → Option String
  | [], _, _ => none
  | e :: rest, ns, key => if e.1 = (ns, key) then some e.2 else storeGet rest ns key

/-- `store.put(namespace, key, value)`; the new entry shadows any older one. -/
def storePut (store : Store) (ns : MemNamespace) (key : String) (v : String) : Store :=
  ((ns, key), v) :: store

/-- `get_memory(store, namespace, default_content)`: return the stored content
if the `"user_preferences"` record exists, otherwise put the default and
return it.  Returns the content together with the (possibly seeded) store. -/
def get_memory (store : Store) (ns : MemNamespace) (default_content : String) : String × Store :=
  match storeGet store ns "user_preferences" with
  | some v => (v, store)
  | none => (default_content, storePut store ns "user_preferences" default_content)

/-- Fixed prompt text `tweedekamer_response_preferences` from
`email_assistant.prompts` (prompt text only; its exact wording is irrelevant
to the workflow logic). -/
def tweedekamer_response_preferences : String := "tweedekamer_response_preferences"

/-- Fixed prompt text `tweedekamer_background` from `email_assistant.prompts`. -/
def tweedekamer_background : String := "tweedekamer_background"

/-- Fixed prompt text `tweedekamer_triage_instructions` from
`email_assistant.prompts`. -/
def tweedekamer_triage_instructions : String := "tweedekamer_triage_instructions"

/-- The registered tool names: `get_tools(["send_email_tool", "Question",
"Done"], include_gmail=True)` plus the six Tweede Kamer tools bound in
`tools = gmail_tools + tweedekamer_tools`. -/
def allToolNames : List String :=
  ["send_email_tool", "Question", "Done",
   "search_kamerleden", "get_kamerstukken", "search_vergaderingen",
   "get_stemmingen", "search_commissies", "clarification_tool"]

/-- The tools gated behind human review in `interrupt_handler`:
`hitl_tools = ["send_email_tool", "Question", "clarification_tool"]`. -/
def hitl_tools : List String := ["send_email_tool", "Question", "clarification_tool"]

/-- The generator capability (the tool-bound chat model): given the tool names
it is bound to and the transcript, it produces the content and tool calls of
one assistant message. -/
abbrev Generator := List String → List Msg → String × List ToolCall

/-- Result of one `llm_call` node invocation: which tools the generator was
bound to, the assistant message appended to the transcript, and the store
after `get_memory` seeding. -/
structure LLMCallOut where
  toolsOffered : List String
  newMessage : Msg
  store : Store
deriving Repr, DecidableEq

/-- The `llm_call` node: seed/read the response-preferences and background
memories, count prior tool calls in the transcript, and if the count is `>= 2`
bind the generator to only `send_email_tool`; otherwise bind the full tool
set. -/
def llm_call (gen : Generator) (store : Store) (messages : List Msg) : LLMCallOut :=
  let rp := get_memory store ("tweedekamer_assistant", "response_preferences")
      tweedekamer_response_preferences
  let bg := get_memory rp.2 ("tweedekamer_assistant", "background") tweedekamer_background
  let offered := if 2 ≤ toolCallCount messages then ["send_email_tool"] else allToolNames
  let g := gen offered messages
  { toolsOffered := offered, newMessage := .ai g.1 g.2, store := bg.2 }

/-- The two successor nodes `should_continue` can route to. -/
inductive NextNode where
  | interrupt_handler
  | mark_as_read_node
deriving Repr, DecidableEq

/-- The `should_continue` conditional edge: look at the last message; if it
carries tool calls, return on the first one (`mark_as_read_node` for `"Done"`,
`interrupt_handler` otherwise); with no tool calls, default to
`mark_as_read_node`.  `none` models the `IndexError` of `messages[-1]` on an
empty transcript. -/
def should_continue (messages : List Msg) : Option NextNode :=
  match messages.getLast? with
  | none => none
  | some m =>
    match m.toolCalls with
    | [] => some .mark_as_read_node
    | tc :: _ => if tc.name = "Done" then some .mark_as_read_node else some .interrupt_handler

/-- A resumption value delivered by the Agent Inbox reviewer:
`{"type": ..., "args": ...}`.  For `edit` the relevant payload
`response["args"]["args"]` (the edited tool arguments) is carried in `args`;
for `response` the feedback text is carried in `args`. -/
structure Resumption where
  rtype : String
  args : String
deriving Repr, DecidableEq

/-- The capability matrix sent with a suspension request. -/
structure HITLConfig where
  allow_ignore : Bool
  allow_respond : Bool
  allow_edit : Bool
  allow_accept : Bool
deriving Repr, DecidableEq

/-- The per-tool capability matrix computed in `interrupt_handler`
(lines choosing `config` by tool name, with the unreachable
`else: raise ValueError`). -/
def hitlConfig (name : String) : Except String HITLConfig :=
  if name = "send_email_tool" then .ok ⟨true, true, true, true⟩
  else if name = "Question" then .ok ⟨true, true, false, false⟩
  else if name = "clarification_tool" then .ok ⟨true, true, true, true⟩
  else .error ("Invalid tool call: " ++ name)

/-- The capability matrix of the triage notification gate. -/
def triageGateConfig : HITLConfig := ⟨true, true, false, false⟩

/-- `ai_message.model_copy(update={"tool_calls": ...})`. -/
def Msg.setToolCalls : Msg → List ToolCall → Msg
  | .ai c _, tcs => .ai c tcs
  | m, _ => m

/-- The tool registry's execution capability: tool name and arguments to the
observation text.  The concrete tools (OData wrappers, Gmail send) are
external; they catch their own errors and return text. -/
abbrev ToolExec := String → String → String

/-- The two values `goto` takes inside `interrupt_handler`. -/
inductive LoopGoto where
  | llm_call
  | end_
deriving Repr, DecidableEq

/-- Contribution of one iteration of the `interrupt_handler` loop body:
messages appended to `result`, whether this iteration set `goto = END`,
the tools actually executed, and the namespaces passed to `update_memory`. -/
structure StepOut where
  result : List Msg
  gotoEnd : Bool
  execs : List (String × String)
  memUpdates : List MemNamespace
deriving Repr, DecidableEq

/-- Everything `interrupt_handler` produces: the `result` message list of its
`Command` update, the `goto` target, the executed tools, and the namespaces
passed to `update_memory`.  `update_memory` itself invokes the external
generator to rewrite the stored profile, so it is recorded as an event. -/
structure HandlerOut where
  result : List Msg
  goto : LoopGoto
  execs : List (String × String)
  memUpdates : List MemNamespace
deriving Repr, DecidableEq

/-- One iteration of the `for tool_call in state["messages"][-1].tool_calls`
loop of `interrupt_handler`.  `aiMsg` is `state["messages"][-1]`, `dec` the
reviewer's resumption for this suspension, `execT` the tool registry.
Raised `ValueError`s/`KeyError`s become `Except.error`.  A resumption whose
`type` is none of accept/edit/ignore/response falls through the `elif` chain
and contributes nothing. -/
def stepToolCall (execT : ToolExec) (dec : ToolCall → Resumption) (aiMsg : Msg)
    (tc : ToolCall) : Except String StepOut :=
  if tc.name ∉ hitl_tools then
    if tc.name ∈ allToolNames then
      .ok ⟨[.tool tc.name (execT tc.name tc.args) tc.id], false, [(tc.name, tc.args)], []⟩
    else .error ("KeyError: " ++ tc.name)
  else do
    let _config ← hitlConfig tc.name
    let r := dec tc
    if r.rtype = "accept" then
      .ok ⟨[.tool tc.name (execT tc.name tc.args) tc.id], false, [(tc.name, tc.args)], []⟩
    else if r.rtype = "edit" then
      let edited_args := r.args
      let updated := (aiMsg.toolCalls.filter (fun c => c.id ≠ tc.id)) ++
        [⟨tc.name, edited_args, tc.id⟩]
      let newAi := aiMsg.setToolCalls updated
      if tc.name = "send_email_tool" then
        .ok ⟨[newAi, .tool tc.name (execT tc.name edited_args) tc.id], false,
             [(tc.name, edited_args)], [("tweedekamer_assistant", "response_preferences")]⟩
      else .error ("Invalid tool call: " ++ tc.name)
    else if r.rtype = "ignore" then
      if tc.name = "send_email_tool" then
        .ok ⟨[.tool tc.name "User ignored this email draft. Ignore this email and end the workflow." tc.id],
             true, [], [("tweedekamer_assistant", "triage_preferences")]⟩
      else if tc.name = "Question" then
        .ok ⟨[.tool tc.name "User ignored this question. Ignore this email and end the workflow." tc.id],
             true, [], [("tweedekamer_assistant", "triage_preferences")]⟩
      else if tc.name = "clarification_tool" then
        .ok ⟨[.tool tc.name "User ignored the clarification request. Unable to proceed without more information." tc.id],
             true, [], []⟩
      else .error ("Invalid tool call: " ++ tc.name)
    else if r.rtype = "response" then
      let user_feedback := r.args
      if tc.name = "send_email_tool" then
        .ok ⟨[.tool tc.name ("User gave feedback, which can we incorporate into the email. Feedback: " ++ user_feedback) tc.id],
             false, [], [("tweedekamer_assistant", "response_preferences")]⟩
      else if tc.name = "Question" then
        .ok ⟨[.tool tc.name ("User answered the question, which can we can use for any follow up actions. Feedback: " ++ user_feedback) tc.id],
             false, [], []⟩
      else if tc.name = "clarification_tool" then
        .ok ⟨[.tool tc.name ("User provided clarification: " ++ user_feedback) tc.id,
              .user ("Aanvullende informatie ontvangen: " ++ user_feedback ++ ". Gebruik deze informatie nu om de juiste API call uit te voeren.")],
             false, [], []⟩
      else .error ("Invalid tool call: " ++ tc.name)
    else
      .ok ⟨[], false, [], []⟩

/-- The whole `for` loop of `interrupt_handler`: concatenate the per-call
contributions; `goto` starts as `"llm_call"` and stays `END` once any
iteration sets it. -/
def processToolCalls (execT : ToolExec) (dec : ToolCall → Resumption) (aiMsg : Msg) :
    List ToolCall → Except String HandlerOut
  | [] => .ok ⟨[], .llm_call, [], []⟩
  | tc :: rest => do
    let s ← stepToolCall execT dec aiMsg tc
    let r ← processToolCalls execT dec aiMsg rest
    .ok ⟨s.result ++ r.result,
         if s.gotoEnd then .end_ else r.goto,
         s.execs ++ r.execs,
         s.memUpdates ++ r.memUpdates⟩

/-- The `interrupt_handler` node, applied to `state["messages"][-1]`. -/
def interrupt_handler (execT : ToolExec) (dec : ToolCall → Resumption) (lastMsg : Msg) :
    Except String HandlerOut :=
  processToolCalls execT dec lastMsg lastMsg.toolCalls

/-- The three places `triage_router`'s `Command` can go
(`triage_interrupt_handler` is reachable only from the router). -/
inductive TriageGoto where
  | response_agent
  | triage_interrupt_handler
  | end_
deriving Repr, DecidableEq

/-- The `Command` returned by `triage_router`, plus the store after the
`get_memory` seeding of the triage preferences. -/
structure TriageOut where
  goto : TriageGoto
  classification_decision : String
  messages : List Msg
  store : Store
deriving Repr, DecidableEq

/-- The `triage_router` node.  The external classifier capability
(`llm_router`) is abstracted by its output label `classification`;
`emailMarkdown` is the item rendering produced by `format_gmail_markdown`.
An unrecognized label raises `ValueError(f"Invalid classification: ...")`. -/
def triage_router (classification : String) (emailMarkdown : String) (store : Store) :
    Except String TriageOut :=
  let ti := get_memory store ("tweedekamer_assistant", "triage_preferences")
      tweedekamer_triage_instructions
  if classification = "respond" then
    .ok ⟨.response_agent, classification,
         [.user ("Respond to the email: " ++ emailMarkdown)], ti.2⟩
  else if classification = "ignore" then
    .ok ⟨.end_, classification, [], ti.2⟩
  else if classification = "notify" then
    .ok ⟨.triage_interrupt_handler, classification, [], ti.2⟩
  else .error ("Invalid classification: " ++ classification)

/-- The `Command` returned by `triage_interrupt_handler`, with the namespaces
passed to `update_memory`. -/
structure TriageIGOut where
  goto : TriageGoto
  messages : List Msg
  memUpdates : List MemNamespace
deriving Repr, DecidableEq

/-- The `triage_interrupt_handler` node: suspend with `triageGateConfig`,
then branch on the reviewer's resumption type; any type other than
`response`/`ignore` raises `ValueError`. -/
def triage_interrupt_handler (emailMarkdown : String) (resumption : Resumption) :
    Except String TriageIGOut :=
  let base := [Msg.user ("Email to notify user about: " ++ emailMarkdown)]
  if resumption.rtype = "response" then
    .ok ⟨.response_agent,
         base ++ [.user ("User wants to reply to the email. Use this feedback to respond: " ++ resumption.args)],
         [("tweedekamer_assistant", "triage_preferences")]⟩
  else if resumption.rtype = "ignore" then
    .ok ⟨.end_,
         base ++ [.user "The user decided to ignore the email even though it was classified as notify. Update triage preferences to capture this."],
         [("tweedekamer_assistant", "triage_preferences")]⟩
  else .error "Invalid response"

/-- The synthetic-identifier markers checked by
`email_id.startswith(('test-', 'langsmith-', 'mock-', 'debug-'))`. -/
def syntheticIdMarkers : List String := ["test-", "langsmith-", "mock-", "debug-"]

/-- Character-list prefix test, the semantics of Python's `str.startswith`
for one marker. -/
def startsWithChars : List Char → List Char → Bool
  | [], _ => true
  | _, [] => false
  | p :: ps, s :: ss => p == s && startsWithChars ps ss

/-- Whether the identifier starts with one of the reserved synthetic
markers. -/
def isSyntheticId (email_id : String) : Bool :=
  syntheticIdMarkers.any (fun p => startsWithChars p.data email_id.data)

/-- Observable outcome of `mark_as_read_node`: whether the underlying
`mark_as_read` call was attempted, and whether it returned without raising
(a raise is caught and only logged). -/
structure MarkAsReadOut where
  attempted : Bool
  succeeded : Bool
deriving Repr, DecidableEq

/-- The `mark_as_read_node` node.  `mark_as_read` is the external Gmail
side effect, which may raise (`Except.error`); the node guards with
`if email_id and not email_id.startswith((...))`, catches any raise from the
call, and itself never raises. -/
def mark_as_read_node (mark_as_read : String → Except String Unit) (email_id : String) :
    Except String MarkAsReadOut :=
  if email_id ≠ "" ∧ ¬ isSyntheticId email_id then
    match mark_as_read email_id with
    | .ok _ => .ok ⟨true, true⟩
    | .error _ => .ok ⟨true, false⟩
  else .ok ⟨false, true⟩

/-- The observable state of one conversation run: transcript, the
classification decision (set once by triage), the store, the tools actually
executed, the `update_memory` events, how many times the generator was
invoked by `llm_call`, whether the workflow reached END (`done`), and whether
the terminal sink attempted its side effect. -/
structure LoopState where
  messages : List Msg
  classification : Option String
  store : Store
  execs : List (String × String)
  memUpdates : List MemNamespace
  genCalls : Nat
  done : Bool
  sinkAttempted : Bool
deriving Repr, DecidableEq

/-- The `response_agent` subgraph: alternate `llm_call`, the
`should_continue` edge, `interrupt_handler`, and `mark_as_read_node`,
mirroring the compiled `agent_builder` graph.  `fuel` bounds the recursion
(LangGraph's recursion limit); running out of fuel leaves `done = false`.
Handler results are appended to the transcript; the `edit` branch's
same-message-id replacement performed by the `add_messages` reducer is
covered at the handler level (the replaced and replacing assistant turns
carry equally many tool calls). -/
def runLoop (gen : Generator) (dec : List Msg → ToolCall → Resumption)
    (execT : ToolExec) (markF : String → Except String Unit) (email_id : String) :
    Nat → LoopState → Except String LoopState
  | 0, st => .ok st
  | fuel + 1, st =>
    let c := llm_call gen st.store st.messages
    let msgs1 := st.messages ++ [c.newMessage]
    let st1 := { st with messages := msgs1, store := c.store, genCalls := st.genCalls + 1 }
    match should_continue msgs1 with
    | none => .error "IndexError"
    | some .mark_as_read_node =>
      match mark_as_read_node markF email_id with
      | .ok mo => .ok { st1 with done := true, sinkAttempted := mo.attempted }
      | .error e => .error e
    | some .interrupt_handler => do
      let h ← interrupt_handler execT (dec msgs1) c.newMessage
      let st2 := { st1 with
        messages := msgs1 ++ h.result,
        execs := st1.execs ++ h.execs,
        memUpdates := st1.memUpdates ++ h.memUpdates }
      match h.goto with
      | .end_ => .ok { st2 with done := true }
      | .llm_call => runLoop gen dec execT markF email_id fuel st2

/-- The loop state entering the `response_agent` subgraph. -/
def initialLoopState (classification : Option String) (messages : List Msg)
    (store : Store) : LoopState :=
  ⟨messages, classification, store, [], [], 0, false, false⟩

/-- The overall workflow (`overall_workflow`): `triage_router`, then END,
the triage gate, or the response agent.  `classification` abstracts the
classifier capability's output for this item, `triageDec` the reviewer's
resumption at the triage gate. -/
def runWorkflow (classification : String) (triageDec : Resumption) (gen : Generator)
    (dec : List Msg → ToolCall → Resumption) (execT : ToolExec)
    (markF : String → Except String Unit) (emailMarkdown email_id : String)
    (store : Store) (fuel : Nat) : Except String LoopState := do
  let t ← triage_router classification emailMarkdown store
  match t.goto with
  | .end_ =>
    .ok { initialLoopState (some t.classification_decision) t.messages t.store with done := true }
  | .response_agent =>
    runLoop gen dec execT markF email_id fuel
      (initialLoopState (some t.classification_decision) t.messages t.store)
  | .triage_interrupt_handler => do
    let g ← triage_interrupt_handler emailMarkdown triageDec
    let st0 := { initialLoopState (some t.classification_decision)
      (t.messages ++ g.messages) t.store with memUpdates := g.memUpdates }
    match g.goto with
    | .end_ => .ok { st0 with done := true }
    | _ => runLoop gen dec execT markF email_id fuel st0

/-- Modelled from the spec: the tool-invocation requests carried by assistant
turns of a transcript, in order — the spec-side counterpart against which the
source's `tool_call_count` is compared. -/
def transcriptRequests (messages : List Msg) : List ToolCall :=
  messages.foldr (fun m acc => m.toolCalls ++ acc) []

/-! ## Helper lemmas -/

/-- `toolCallCount` adds over transcript concatenation. -/
theorem toolCallCount_append (a b : List Msg) :
    toolCallCount (a ++ b) = toolCallCount a + toolCallCount b := by
  simp [toolCallCount]

/-- The last element of a transcript extended by one message. -/
theorem getLast?_append_singleton (l : List Msg) (m : Msg) :
    (l ++ [m]).getLast? = some m := by
  simp [List.getLast?_append]

/-- Resolving a pending `send_email_tool` invocation with an `ignore`
decision: a declined tool-result turn, `goto = END`, no execution, and a
triage-preferences memory update. -/
theorem interrupt_handler_ignore_send (execT : ToolExec) (dec : ToolCall → Resumption)
    (content args cid : String)
    (h : (dec ⟨"send_email_tool", args, cid⟩).rtype = "ignore") :
    interrupt_handler execT dec (.ai content [⟨"send_email_tool", args, cid⟩]) =
      .ok ⟨[.tool "send_email_tool" "User ignored this email draft. Ignore this email and end the workflow." cid],
           .end_, [], [("tweedekamer_assistant", "triage_preferences")]⟩ := by
  simp [interrupt_handler, processToolCalls, stepToolCall, Msg.toolCalls, hitl_tools,
    hitlConfig, h, bind, Except.bind]

/-- Resolving a pending `Question` invocation with an `ignore` decision. -/
theorem interrupt_handler_ignore_question (execT : ToolExec) (dec : ToolCall → Resumption)
    (content args cid : String)
    (h : (dec ⟨"Question", args, cid⟩).rtype = "ignore") :
    interrupt_handler execT dec (.ai content [⟨"Question", args, cid⟩]) =
      .ok ⟨[.tool "Question" "User ignored this question. Ignore this email and end the workflow." cid],
           .end_, [], [("tweedekamer_assistant", "triage_preferences")]⟩ := by
  simp [interrupt_handler, processToolCalls, stepToolCall, Msg.toolCalls, hitl_tools,
    hitlConfig, h, bind, Except.bind]

/-- Resolving a pending `clarification_tool` invocation with an `ignore`
decision: `goto = END` and no memory update. -/
theorem interrupt_handler_ignore_clarification (execT : ToolExec) (dec : ToolCall → Resumption)
    (content args cid : String)
    (h : (dec ⟨"clarification_tool", args, cid⟩).rtype = "ignore") :
    interrupt_handler execT dec (.ai content [⟨"clarification_tool", args, cid⟩]) =
      .ok ⟨[.tool "clarification_tool" "User ignored the clarification request. Unable to proceed without more information." cid],
           .end_, [], []⟩ := by
  simp [interrupt_handler, processToolCalls, stepToolCall, Msg.toolCalls, hitl_tools,
    hitlConfig, h, bind, Except.bind]

/-! ## Claim theorems -/

/-- C1: in a conversation whose transcript already records at least 2 tool
invocations, the next `llm_call` binds the generator to only the designated
finalize tool `send_email_tool`, so no other registered tool can be
selected. -/
theorem llm_call_restricts_to_finalize_after_ceiling (gen : Generator) (store : Store)
    (messages : List Msg) (h : 2 ≤ toolCallCount messages) :
    (llm_call gen store messages).toolsOffered = ["send_email_tool"] := by
  simp [llm_call, h]

/-- Witness for C1 at a transcript with exactly 2 recorded tool
invocations. -/
theorem llm_call_restricts_to_finalize_after_ceiling_witness :
    2 ≤ toolCallCount [Msg.ai "" [⟨"search_kamerleden", "a", "1"⟩],
        Msg.tool "search_kamerleden" "r" "1", Msg.ai "" [⟨"get_kamerstukken", "b", "2"⟩]] ∧
    (llm_call (fun _ _ => ("", [])) []
        [Msg.ai "" [⟨"search_kamerleden", "a", "1"⟩],
         Msg.tool "search_kamerleden" "r" "1",
         Msg.ai "" [⟨"get_kamerstukken", "b", "2"⟩]]).toolsOffered = ["send_email_tool"] :=
  ⟨by decide,
   llm_call_restricts_to_finalize_after_ceiling (fun _ _ => ("", [])) _ _ (by decide)⟩

/-- C5: `get_memory` on a namespace with no existing record stores the
caller-supplied default and returns it, and a subsequent `get_memory` on the
same namespace (with any default) returns that same seeded value. -/
theorem get_memory_seeding_idempotent (store : Store) (ns : MemNamespace) (d d' : String)
    (h : storeGet store ns "user_preferences" = none) :
    (get_memory store ns d).1 = d ∧
    storeGet (get_memory store ns d).2 ns "user_preferences" = some d ∧
    (get_memory (get_memory store ns d).2 ns d').1 = d := by
  simp [get_memory, h, storePut, storeGet]

/-- Witness for C5 on the empty store. -/
theorem get_memory_seeding_idempotent_witness :
    storeGet [] ("tweedekamer_assistant", "triage_preferences") "user_preferences" = none ∧
    ((get_memory [] ("tweedekamer_assistant", "triage_preferences") "a").1 = "a" ∧
     storeGet (get_memory [] ("tweedekamer_assistant", "triage_preferences") "a").2
       ("tweedekamer_assistant", "triage_preferences") "user_preferences" = some "a" ∧
     (get_memory (get_memory [] ("tweedekamer_assistant", "triage_preferences") "a").2
       ("tweedekamer_assistant", "triage_preferences") "b").1 = "a") :=
  ⟨rfl, get_memory_seeding_idempotent [] ("tweedekamer_assistant", "triage_preferences")
    "a" "b" rfl⟩

/-- C3 counterexample: a newest assistant turn requesting the finalize tool
`send_email_tool` routes to the dispatch gate (`interrupt_handler`), not to
the terminal node; and a turn requesting `Done` — which is neither "no tool
request" nor the finalize tool — routes to the terminal node.  Both directions
of the claimed characterization fail. -/
theorem should_continue_finalize_counterexample :
    should_continue [Msg.ai "draft" [⟨"send_email_tool", "a", "1"⟩]] =
      some NextNode.interrupt_handler ∧
    should_continue [Msg.ai "" [⟨"Done", "", "2"⟩]] = some NextNode.mark_as_read_node := by
  decide

/-- C3 amended: `should_continue` routes to the terminal node exactly when
the newest turn carries no tool invocation request or its first requested
tool is the completion tool `Done`; in every other case it routes to the
dispatch gate. -/
theorem should_continue_terminal_iff_done_or_no_tools (messages : List Msg) (m : Msg)
    (h : messages.getLast? = some m) :
    (should_continue messages = some NextNode.mark_as_read_node ↔
      (m.toolCalls = [] ∨ m.toolCalls.head?.map (fun tc => tc.name) = some "Done")) ∧
    (should_continue messages = some NextNode.interrupt_handler ↔
      ¬ (m.toolCalls = [] ∨ m.toolCalls.head?.map (fun tc => tc.name) = some "Done")) := by
  unfold should_continue
  rw [h]
  cases hm : m.toolCalls with
  | nil => simp [hm]
  | cons tc rest => by_cases hd : tc.name = "Done" <;> simp [hm, hd]

/-- Witness for the amended C3 at a one-message transcript with no tool
calls. -/
theorem should_continue_terminal_iff_done_or_no_tools_witness :
    [Msg.ai "reply" []].getLast? = some (Msg.ai "reply" []) ∧
    ((should_continue [Msg.ai "reply" []] = some NextNode.mark_as_read_node ↔
      ((Msg.ai "reply" []).toolCalls = [] ∨
        (Msg.ai "reply" []).toolCalls.head?.map (fun tc => tc.name) = some "Done")) ∧
     (should_continue [Msg.ai "reply" []] = some NextNode.interrupt_handler ↔
      ¬ ((Msg.ai "reply" []).toolCalls = [] ∨
        (Msg.ai "reply" []).toolCalls.head?.map (fun tc => tc.name) = some "Done"))) :=
  ⟨by decide, should_continue_terminal_iff_done_or_no_tools [Msg.ai "reply" []]
    (Msg.ai "reply" []) (by decide)⟩

/-- C9 counterexample: the empty source identifier starts with no reserved
synthetic marker, yet the mark-as-handled side effect is skipped for it —
the "performs it for every other identifier" half of the claim fails. -/
theorem mark_as_read_empty_id_counterexample :
    isSyntheticId "" = false ∧
    mark_as_read_node (fun _ => .ok ()) "" = .ok ⟨false, true⟩ := by
  constructor
  · decide
  · rfl

/-- C9 amended: `mark_as_read_node` skips the side effect exactly when the
identifier is empty or starts with a reserved synthetic marker, performs it
for every other identifier, and never raises — even when the underlying
`mark_as_read` call fails. -/
theorem mark_as_read_skip_condition (markF : String → Except String Unit)
    (email_id : String) :
    (mark_as_read_node markF email_id).isOk = true ∧
    ((email_id = "" ∨ isSyntheticId email_id = true) →
      mark_as_read_node markF email_id = .ok ⟨false, true⟩) ∧
    (email_id ≠ "" → isSyntheticId email_id = false →
      (mark_as_read_node markF email_id).map (fun o => o.attempted) = .ok true) := by
  unfold mark_as_read_node
  by_cases hc : email_id ≠ "" ∧ ¬ isSyntheticId email_id
  · rcases hc with ⟨h1, h2⟩
    cases markF email_id <;>
      simp [h1, h2, Except.isOk, Except.toBool, Except.map]
  · rw [if_neg hc]
    push_neg at hc
    refine ⟨rfl, fun _ => rfl, fun h1 h2 => absurd (hc h1) (by simp [h2])⟩

/-- Witness for the amended C9: a synthetic identifier is skipped and a real
identifier is marked, both under a failing `mark_as_read`. -/
theorem mark_as_read_skip_condition_witness :
    mark_as_read_node (fun _ => Except.error "boom") "test-123" = .ok ⟨false, true⟩ ∧
    (mark_as_read_node (fun _ => Except.error "boom") "198d78298b0ec161").map
      (fun o => o.attempted) = .ok true :=
  ⟨(mark_as_read_skip_condition (fun _ => Except.error "boom") "test-123").2.1
      (Or.inr (by decide)),
   (mark_as_read_skip_condition (fun _ => Except.error "boom") "198d78298b0ec161").2.2
      (by decide) (by decide)⟩

/-- C4: resolving a tool-dispatch suspension with an `ignore` decision
appends a tool-result turn stating the action was declined; for
`send_email_tool` and for `Question` it additionally updates the triage
preference namespace and transitions straight to END; for
`clarification_tool` it transitions to END without a preference update. -/
theorem ignore_decision_declines_and_ends (execT : ToolExec) (dec : ToolCall → Resumption)
    (content args cid : String) :
    ((dec ⟨"send_email_tool", args, cid⟩).rtype = "ignore" →
      interrupt_handler execT dec (.ai content [⟨"send_email_tool", args, cid⟩]) =
        .ok ⟨[.tool "send_email_tool" "User ignored this email draft. Ignore this email and end the workflow." cid],
             .end_, [], [("tweedekamer_assistant", "triage_preferences")]⟩) ∧
    ((dec ⟨"Question", args, cid⟩).rtype = "ignore" →
      interrupt_handler execT dec (.ai content [⟨"Question", args, cid⟩]) =
        .ok ⟨[.tool "Question" "User ignored this question. Ignore this email and end the workflow." cid],
             .end_, [], [("tweedekamer_assistant", "triage_preferences")]⟩) ∧
    ((dec ⟨"clarification_tool", args, cid⟩).rtype = "ignore" →
      interrupt_handler execT dec (.ai content [⟨"clarification_tool", args, cid⟩]) =
        .ok ⟨[.tool "clarification_tool" "User ignored the clarification request. Unable to proceed without more information." cid],
             .end_, [], []⟩) :=
  ⟨fun h => interrupt_handler_ignore_send execT dec content args cid h,
   fun h => interrupt_handler_ignore_question execT dec content args cid h,
   fun h => interrupt_handler_ignore_clarification execT dec content args cid h⟩

/-- Witness for C4 with an always-ignore reviewer. -/
theorem ignore_decision_declines_and_ends_witness :
    interrupt_handler (fun _ _ => "obs") (fun _ => ⟨"ignore", ""⟩)
        (.ai "c" [⟨"send_email_tool", "a", "1"⟩]) =
      .ok ⟨[.tool "send_email_tool" "User ignored this email draft. Ignore this email and end the workflow." "1"],
           .end_, [], [("tweedekamer_assistant", "triage_preferences")]⟩ ∧
    interrupt_handler (fun _ _ => "obs") (fun _ => ⟨"ignore", ""⟩)
        (.ai "c" [⟨"Question", "a", "1"⟩]) =
      .ok ⟨[.tool "Question" "User ignored this question. Ignore this email and end the workflow." "1"],
           .end_, [], [("tweedekamer_assistant", "triage_preferences")]⟩ ∧
    interrupt_handler (fun _ _ => "obs") (fun _ => ⟨"ignore", ""⟩)
        (.ai "c" [⟨"clarification_tool", "a", "1"⟩]) =
      .ok ⟨[.tool "clarification_tool" "User ignored the clarification request. Unable to proceed without more information." "1"],
           .end_, [], []⟩ :=
  ⟨(ignore_decision_declines_and_ends (fun _ _ => "obs") (fun _ => ⟨"ignore", ""⟩) "c" "a" "1").1 rfl,
   (ignore_decision_declines_and_ends (fun _ _ => "obs") (fun _ => ⟨"ignore", ""⟩) "c" "a" "1").2.1 rfl,
   (ignore_decision_declines_and_ends (fun _ _ => "obs") (fun _ => ⟨"ignore", ""⟩) "c" "a" "1").2.2 rfl⟩

/-- C6: resolving a pending `send_email_tool` invocation with an
`edit(newArguments)` decision records the invocation with the new arguments
under the original correlation id, and the appended tool-result turn is
correlated by that same id. -/
theorem edit_preserves_correlation_id (execT : ToolExec) (dec : ToolCall → Resumption)
    (content oldArgs newArgs cid : String)
    (h : dec ⟨"send_email_tool", oldArgs, cid⟩ = ⟨"edit", newArgs⟩) :
    (interrupt_handler execT dec (.ai content [⟨"send_email_tool", oldArgs, cid⟩])).map
        (fun out => out.result) =
      .ok [.ai content [⟨"send_email_tool", newArgs, cid⟩],
           .tool "send_email_tool" (execT "send_email_tool" newArgs) cid] := by
  simp [interrupt_handler, processToolCalls, stepToolCall, Msg.toolCalls, Msg.setToolCalls,
    hitl_tools, hitlConfig, h, bind, Except.bind, Except.map]

/-- Witness for C6 with a reviewer that edits the draft. -/
theorem edit_preserves_correlation_id_witness :
    (interrupt_handler (fun _ a => a) (fun _ => ⟨"edit", "new-draft"⟩)
        (.ai "c" [⟨"send_email_tool", "old-draft", "42"⟩])).map (fun out => out.result) =
      .ok [.ai "c" [⟨"send_email_tool", "new-draft", "42"⟩],
           .tool "send_email_tool" "new-draft" "42"] :=
  edit_preserves_correlation_id (fun _ a => a) (fun _ => ⟨"edit", "new-draft"⟩)
    "c" "old-draft" "new-draft" "42" rfl

/-- C7: an item classified `notify` whose triage suspension the reviewer
resolves with an `ignore` decision reaches END with the triage preference
namespace updated and no tool ever invoked. -/
theorem notify_ignored_ends_without_tool_invocation (gen : Generator)
    (dec : List Msg → ToolCall → Resumption) (execT : ToolExec)
    (markF : String → Except String Unit) (emailMarkdown email_id fb : String)
    (store : Store) (fuel : Nat) :
    (runWorkflow "notify" ⟨"ignore", fb⟩ gen dec execT markF emailMarkdown email_id
        store fuel).map
      (fun st => (st.done, st.execs, st.memUpdates, st.classification)) =
      .ok (true, [], [("tweedekamer_assistant", "triage_preferences")], some "notify") := by
  simp [runWorkflow, triage_router, triage_interrupt_handler, initialLoopState,
    bind, Except.bind, Except.map]

/-- C10: the circuit-breaker count used at `llm_call` equals the number of
tool-invocation requests carried by assistant turns of the transcript, and a
request whose execution the reviewer declined still counts toward the
ceiling: after one executed invocation and one declined `send_email_tool`
invocation, the next generator call is already restricted to the finalize
tool. -/
theorem circuit_breaker_counts_requests (gen : Generator) (store : Store)
    (execT : ToolExec) (dec : ToolCall → Resumption) :
    (∀ messages : List Msg,
      toolCallCount messages = (transcriptRequests messages).length) ∧
    (∀ (messages : List Msg) (content args cid : String) (out : HandlerOut),
      toolCallCount messages = 1 →
      (dec ⟨"send_email_tool", args, cid⟩).rtype = "ignore" →
      interrupt_handler execT dec (.ai content [⟨"send_email_tool", args, cid⟩]) = .ok out →
      (llm_call gen store
          ((messages ++ [.ai content [⟨"send_email_tool", args, cid⟩]]) ++ out.result)).toolsOffered =
        ["send_email_tool"]) := by
  constructor
  · intro messages
    induction messages with
    | nil => rfl
    | cons m rest ih => simp [toolCallCount, transcriptRequests] at ih ⊢; omega
  · intro messages content args cid out h1 h2 hout
    rw [interrupt_handler_ignore_send execT dec content args cid h2] at hout
    simp only [Except.ok.injEq] at hout
    subst hout
    have hc : toolCallCount
        ((messages ++ [Msg.ai content [⟨"send_email_tool", args, cid⟩]]) ++
          [Msg.tool "send_email_tool" "User ignored this email draft. Ignore this email and end the workflow." cid]) = 2 := by
      rw [toolCallCount_append, toolCallCount_append, h1]
      rfl
    simpa [llm_call] using congrArg (fun n => if 2 ≤ n then ["send_email_tool"] else allToolNames) hc

/-- Witness for C10: a transcript with one executed `search_kamerleden`
request and one declined `send_email_tool` request restricts the next call. -/
theorem circuit_breaker_counts_requests_witness :
    toolCallCount [Msg.ai "" [⟨"search_kamerleden", "q", "0"⟩],
        Msg.tool "search_kamerleden" "r" "0"] =
      (transcriptRequests [Msg.ai "" [⟨"search_kamerleden", "q", "0"⟩],
        Msg.tool "search_kamerleden" "r" "0"]).length ∧
    (llm_call (fun _ _ => ("", [])) []
        (([Msg.ai "" [⟨"search_kamerleden", "q", "0"⟩],
           Msg.tool "search_kamerleden" "r" "0"] ++
          [Msg.ai "c" [⟨"send_email_tool", "a", "1"⟩]]) ++
         [Msg.tool "send_email_tool" "User ignored this email draft. Ignore this email and end the workflow." "1"])).toolsOffered =
      ["send_email_tool"] :=
  ⟨(circuit_breaker_counts_requests (fun _ _ => ("", [])) [] (fun _ _ => "obs")
      (fun _ => ⟨"ignore", ""⟩)).1 _,
   (circuit_breaker_counts_requests (fun _ _ => ("", [])) [] (fun _ _ => "obs")
      (fun _ => ⟨"ignore", ""⟩)).2
     [Msg.ai "" [⟨"search_kamerleden", "q", "0"⟩], Msg.tool "search_kamerleden" "r" "0"]
     "c" "a" "1"
     ⟨[.tool "send_email_tool" "User ignored this email draft. Ignore this email and end the workflow." "1"],
      .end_, [], [("tweedekamer_assistant", "triage_preferences")]⟩
     (by decide) rfl
     (interrupt_handler_ignore_send (fun _ _ => "obs") (fun _ => ⟨"ignore", ""⟩) "c" "a" "1" rfl)⟩

/-- `mark_as_read_node` never raises. -/
theorem mark_as_read_node_ok (markF : String → Except String Unit) (email_id : String) :
    ∃ mo, mark_as_read_node markF email_id = .ok mo := by
  unfold mark_as_read_node
  split
  · cases markF email_id <;> exact ⟨_, rfl⟩
  · exact ⟨_, rfl⟩

/-- No step of the response-agent loop writes `classification_decision`:
a completed `runLoop` leaves it exactly as it entered. -/
theorem runLoop_preserves_classification (gen : Generator)
    (dec : List Msg → ToolCall → Resumption) (execT : ToolExec)
    (markF : String → Except String Unit) (email_id : String) :
    ∀ (fuel : Nat) (st r : LoopState),
      runLoop gen dec execT markF email_id fuel st = .ok r →
      r.classification = st.classification := by
  intro fuel
  induction fuel with
  | zero =>
    intro st r h
    simp only [runLoop, Except.ok.injEq] at h
    rw [← h]
  | succ n ih =>
    intro st r h
    simp only [runLoop, bind, Except.bind] at h
    split at h
    · exact absurd h (by simp)
    · split at h
      · simp only [Except.ok.injEq] at h
        rw [← h]
      · exact absurd h (by simp)
    · split at h
      · exact absurd h (by simp)
      · split at h
        · simp only [Except.ok.injEq] at h
          rw [← h]
        · exact (ih _ r h).trans rfl

/-- C8: the triage step sets `classification_decision` exactly once, to one
of the three enumerated labels: a classifier output outside
`{respond, notify, ignore}` raises `ValueError` and aborts the conversation,
and in every completed run the final classification is the label the triage
step set (no later step overwrites it). -/
theorem classification_set_once_and_validated (c : String) (triageDec : Resumption)
    (gen : Generator) (dec : List Msg → ToolCall → Resumption) (execT : ToolExec)
    (markF : String → Except String Unit) (emailMarkdown email_id : String)
    (store : Store) (fuel : Nat) :
    (c ∉ ["respond", "notify", "ignore"] →
      runWorkflow c triageDec gen dec execT markF emailMarkdown email_id store fuel =
        .error ("Invalid classification: " ++ c)) ∧
    (∀ r, runWorkflow c triageDec gen dec execT markF emailMarkdown email_id store fuel =
        .ok r →
      r.classification = some c ∧ c ∈ ["respond", "notify", "ignore"]) := by
  constructor
  · intro hc
    simp only [List.mem_cons, List.mem_singleton, not_or] at hc
    obtain ⟨h1, h2, h3⟩ := hc
    simp [runWorkflow, triage_router, h1, h2, h3, bind, Except.bind]
  · intro r h
    by_cases h1 : c = "respond"
    · subst h1
      simp [runWorkflow, triage_router, bind, Except.bind, initialLoopState] at h
      have := runLoop_preserves_classification gen dec execT markF email_id fuel _ r h
      exact ⟨this.trans rfl, by decide⟩
    · by_cases h2 : c = "ignore"
      · subst h2
        simp [runWorkflow, triage_router, bind, Except.bind, initialLoopState] at h
        subst h
        exact ⟨rfl, by decide⟩
      · by_cases h3 : c = "notify"
        · subst h3
          simp [runWorkflow, triage_router, bind, Except.bind, initialLoopState] at h
          by_cases hr : triageDec.rtype = "response"
          · simp [triage_interrupt_handler, hr] at h
            have := runLoop_preserves_classification gen dec execT markF email_id fuel _ r h
            exact ⟨this.trans rfl, by decide⟩
          · by_cases hi : triageDec.rtype = "ignore"
            · simp [triage_interrupt_handler, hr, hi] at h
              subst h
              exact ⟨rfl, by decide⟩
            · simp [triage_interrupt_handler, hr, hi] at h
        · simp [runWorkflow, triage_router, h1, h2, h3, bind, Except.bind] at h

/-- Witness for C8: the label `spam` aborts with `ValueError`, and a
completed `ignore` run carries classification `ignore`. -/
theorem classification_set_once_and_validated_witness :
    runWorkflow "spam" ⟨"ignore", ""⟩ (fun _ _ => ("", [])) (fun _ _ => ⟨"accept", ""⟩)
      (fun _ _ => "obs") (fun _ => .ok ()) "md" "id" [] 3 =
      .error ("Invalid classification: " ++ "spam") ∧
    ((⟨[], some "ignore",
       [((("tweedekamer_assistant", "triage_preferences"), "user_preferences"),
         tweedekamer_triage_instructions)], [], [], 0, true, false⟩ : LoopState).classification =
        some "ignore" ∧ "ignore" ∈ ["respond", "notify", "ignore"]) :=
  ⟨(classification_set_once_and_validated "spam" ⟨"ignore", ""⟩ (fun _ _ => ("", []))
      (fun _ _ => ⟨"accept", ""⟩) (fun _ _ => "obs") (fun _ => .ok ()) "md" "id" [] 3).1
      (by decide),
   (classification_set_once_and_validated "ignore" ⟨"ignore", ""⟩ (fun _ _ => ("", []))
      (fun _ _ => ⟨"accept", ""⟩) (fun _ _ => "obs") (fun _ => .ok ()) "md" "id" [] 3).2
      ⟨[], some "ignore",
       [((("tweedekamer_assistant", "triage_preferences"), "user_preferences"),
         tweedekamer_triage_instructions)], [], [], 0, true, false⟩ rfl⟩

/-- Routing after an assistant turn with no tool calls: terminal. -/
theorem should_continue_append_no_tools (l : List Msg) (c : String) :
    should_continue (l ++ [.ai c []]) = some NextNode.mark_as_read_node := by
  simp [should_continue, getLast?_append_singleton, Msg.toolCalls]

/-- Routing after an assistant turn whose first tool call is `Done`:
terminal. -/
theorem should_continue_append_done (l : List Msg) (c : String) (tc : ToolCall)
    (h : tc.name = "Done") :
    should_continue (l ++ [.ai c [tc]]) = some NextNode.mark_as_read_node := by
  simp [should_continue, getLast?_append_singleton, Msg.toolCalls, h]

/-- Routing after an assistant turn with one non-`Done` tool call:
dispatch. -/
theorem should_continue_append_tool (l : List Msg) (c : String) (tc : ToolCall)
    (h : tc.name ≠ "Done") :
    should_continue (l ++ [.ai c [tc]]) = some NextNode.interrupt_handler := by
  simp [should_continue, getLast?_append_singleton, Msg.toolCalls, h]

/-- A registered tool call resolved by an accept/ignore/response decision
neither raises nor appends an assistant turn, so it contributes no new
tool-invocation request to the transcript. -/
theorem stepToolCall_no_requests (execT : ToolExec) (dec : ToolCall → Resumption)
    (aiMsg : Msg) (tc : ToolCall)
    (hreg : tc.name ∈ allToolNames)
    (hdec : (dec tc).rtype ∈ ["accept", "ignore", "response"]) :
    (stepToolCall execT dec aiMsg tc).map (fun s => toolCallCount s.result) = .ok 0 := by
  obtain ⟨nm, ar, cid⟩ := tc
  by_cases hh : nm ∈ hitl_tools
  · have hn : nm = "send_email_tool" ∨ nm = "Question" ∨ nm = "clarification_tool" := by
      simpa [hitl_tools] using hh
    simp only [List.mem_cons, List.not_mem_nil, or_false] at hdec
    rcases hn with hn | hn | hn <;> subst hn <;>
      rcases hdec with hd | hd | hd <;>
        simp [stepToolCall, hitl_tools, hitlConfig, hd, bind, Except.bind, Except.map,
          toolCallCount, Msg.toolCalls]
  · simp [stepToolCall, hh, hreg, Except.map, toolCallCount, Msg.toolCalls]

/-- `interrupt_handler` on a single registered tool call, under an
accept/ignore/response decision: succeeds and appends no new
tool-invocation request. -/
theorem interrupt_handler_no_requests (execT : ToolExec) (dec : ToolCall → Resumption)
    (content : String) (tc : ToolCall)
    (hreg : tc.name ∈ allToolNames)
    (hdec : (dec tc).rtype ∈ ["accept", "ignore", "response"]) :
    (interrupt_handler execT dec (.ai content [tc])).map
      (fun out => toolCallCount out.result) = .ok 0 := by
  have hs := stepToolCall_no_requests execT dec (.ai content [tc]) tc hreg hdec
  rcases hstep : stepToolCall execT dec (.ai content [tc]) tc with e | s
  · rw [hstep] at hs
    simp [Except.map] at hs
  · rw [hstep] at hs
    simp only [Except.map, Except.ok.injEq] at hs
    simp [interrupt_handler, processToolCalls, Msg.toolCalls, hstep, bind, Except.bind,
      Except.map, toolCallCount_append, hs]

/-- C2 counterexample: the circuit breaker does not bound the loop.  A
generator that requests `search_kamerleden` while unrestricted and keeps
requesting the finalize tool `send_email_tool` when restricted — with the
reviewer accepting every suspension — drives the loop through 6 executed
tool invocations in 6 iterations without ever reaching the terminal state,
exceeding the claimed ceiling of 2 invocations plus one terminating call. -/
theorem loop_exceeds_ceiling_counterexample :
    (runLoop
        (fun offered _ => if offered = ["send_email_tool"]
          then ("", [⟨"send_email_tool", "final", "9"⟩])
          else ("", [⟨"search_kamerleden", "q", "1"⟩]))
        (fun _ _ => ⟨"accept", ""⟩) (fun _ _ => "obs") (fun _ => .ok ()) "id" 6
        (initialLoopState (some "respond") [.user "Respond to the email: md"] [])).map
      (fun st => (st.done, toolCallCount st.messages, st.execs.length)) =
      .ok (false, 6, 6) := by
  rfl

/-- One loop iteration that routes to the terminal node. -/
theorem runLoop_succ_terminal (gen : Generator) (dec : List Msg → ToolCall → Resumption)
    (execT : ToolExec) (markF : String → Except String Unit) (email_id : String)
    (n : Nat) (st : LoopState) (m : Msg) (mo : MarkAsReadOut)
    (hm : (llm_call gen st.store st.messages).newMessage = m)
    (hsc : should_continue (st.messages ++ [m]) = some NextNode.mark_as_read_node)
    (hmo : mark_as_read_node markF email_id = .ok mo) :
    runLoop gen dec execT markF email_id (n + 1) st =
      .ok { st with
        messages := st.messages ++ [m],
        store := (llm_call gen st.store st.messages).store,
        genCalls := st.genCalls + 1, done := true, sinkAttempted := mo.attempted } := by
  simp only [runLoop]
  rw [hm, hsc, hmo]

/-- One loop iteration that dispatches a tool call whose handler continues at
`llm_call`. -/
theorem runLoop_succ_dispatch (gen : Generator) (dec : List Msg → ToolCall → Resumption)
    (execT : ToolExec) (markF : String → Except String Unit) (email_id : String)
    (n : Nat) (st : LoopState) (m : Msg) (ores : List Msg)
    (oexecs : List (String × String)) (omem : List MemNamespace)
    (hm : (llm_call gen st.store st.messages).newMessage = m)
    (hsc : should_continue (st.messages ++ [m]) = some NextNode.interrupt_handler)
    (hout : interrupt_handler execT (dec (st.messages ++ [m])) m =
      .ok ⟨ores, .llm_call, oexecs, omem⟩) :
    runLoop gen dec execT markF email_id (n + 1) st =
      runLoop gen dec execT markF email_id n
        { st with
          messages := st.messages ++ [m] ++ ores,
          store := (llm_call gen st.store st.messages).store,
          execs := st.execs ++ oexecs, memUpdates := st.memUpdates ++ omem,
          genCalls := st.genCalls + 1 } := by
  simp only [runLoop]
  rw [hm, hsc]
  simp only [bind, Except.bind]
  rw [hout]

/-- One loop iteration whose dispatched tool call ends the conversation. -/
theorem runLoop_succ_dispatch_end (gen : Generator) (dec : List Msg → ToolCall → Resumption)
    (execT : ToolExec) (markF : String → Except String Unit) (email_id : String)
    (n : Nat) (st : LoopState) (m : Msg) (ores : List Msg)
    (oexecs : List (String × String)) (omem : List MemNamespace)
    (hm : (llm_call gen st.store st.messages).newMessage = m)
    (hsc : should_continue (st.messages ++ [m]) = some NextNode.interrupt_handler)
    (hout : interrupt_handler execT (dec (st.messages ++ [m])) m =
      .ok ⟨ores, .end_, oexecs, omem⟩) :
    runLoop gen dec execT markF email_id (n + 1) st =
      .ok { st with
        messages := st.messages ++ [m] ++ ores,
        store := (llm_call gen st.store st.messages).store,
        execs := st.execs ++ oexecs, memUpdates := st.memUpdates ++ omem,
        genCalls := st.genCalls + 1, done := true } := by
  simp only [runLoop]
  rw [hm, hsc]
  simp only [bind, Except.bind]
  rw [hout]

/-- C2 amended: the recorded-invocation count reaching the ceiling (2) only
narrows the offered tool set to `send_email_tool`; the loop is bounded when
the generator complies.  If every assistant turn carries at most one tool
request chosen from the offered set, the generator produces no tool request
once restricted, and every review decision is of type accept/ignore/response,
then from a fresh transcript the loop reaches END within 3 generator calls
and records at most 2 tool invocations.  (The counterexample shows the bound
fails without the restricted-call proviso.) -/
theorem loop_bounded_for_compliant_generator (gen : Generator)
    (dec : List Msg → ToolCall → Resumption) (execT : ToolExec)
    (markF : String → Except String Unit) (email_id : String)
    (H1 : ∀ offered msgs, ((gen offered msgs).2).length ≤ 1)
    (H4 : ∀ offered msgs, ∀ tc ∈ (gen offered msgs).2, tc.name ∈ offered)
    (H2 : ∀ msgs, (gen ["send_email_tool"] msgs).2 = [])
    (H3 : ∀ msgs tc, (dec msgs tc).rtype ∈ ["accept", "ignore", "response"]) :
    ∀ (fuel : Nat) (st : LoopState), toolCallCount st.messages ≤ 2 →
      3 ≤ fuel + toolCallCount st.messages →
      ∃ stF, runLoop gen dec execT markF email_id fuel st = .ok stF ∧ stF.done = true ∧
        toolCallCount stF.messages ≤ 2 ∧
        stF.genCalls ≤ st.genCalls + (3 - toolCallCount st.messages) := by
  intro fuel
  induction fuel with
  | zero => intro st hc hf; omega
  | succ n ih =>
    intro st hc hf
    obtain ⟨mo, hmo⟩ := mark_as_read_node_ok markF email_id
    by_cases h2c : 2 ≤ toolCallCount st.messages
    · have hg := H2 st.messages
      have hm : (llm_call gen st.store st.messages).newMessage =
          Msg.ai (gen ["send_email_tool"] st.messages).1 [] := by
        simp only [llm_call]
        rw [if_pos h2c, hg]
      have heq := runLoop_succ_terminal gen dec execT markF email_id n st _ mo hm
        (should_continue_append_no_tools _ _) hmo
      refine ⟨_, heq, rfl, ?_, ?_⟩
      · show toolCallCount
          (st.messages ++ [Msg.ai (gen ["send_email_tool"] st.messages).1 []]) ≤ 2
        rw [toolCallCount_append]
        have h0 : toolCallCount [Msg.ai (gen ["send_email_tool"] st.messages).1 []] = 0 := rfl
        omega
      · show st.genCalls + 1 ≤ st.genCalls + (3 - toolCallCount st.messages)
        omega
    · rcases hg : (gen allToolNames st.messages).2 with _ | ⟨tc, rest⟩
      · have hm : (llm_call gen st.store st.messages).newMessage =
            Msg.ai (gen allToolNames st.messages).1 [] := by
          simp only [llm_call]
          rw [if_neg h2c, hg]
        have heq := runLoop_succ_terminal gen dec execT markF email_id n st _ mo hm
          (should_continue_append_no_tools _ _) hmo
        refine ⟨_, heq, rfl, ?_, ?_⟩
        · show toolCallCount
            (st.messages ++ [Msg.ai (gen allToolNames st.messages).1 []]) ≤ 2
          rw [toolCallCount_append]
          have h0 : toolCallCount [Msg.ai (gen allToolNames st.messages).1 []] = 0 := rfl
          omega
        · show st.genCalls + 1 ≤ st.genCalls + (3 - toolCallCount st.messages)
          omega
      · have hrest : rest = [] := by
          have hl := H1 allToolNames st.messages
          rw [hg] at hl
          simpa using hl
        subst hrest
        have hm : (llm_call gen st.store st.messages).newMessage =
            Msg.ai (gen allToolNames st.messages).1 [tc] := by
          simp only [llm_call]
          rw [if_neg h2c, hg]
        by_cases hdone : tc.name = "Done"
        · have heq := runLoop_succ_terminal gen dec execT markF email_id n st _ mo hm
            (should_continue_append_done _ _ _ hdone) hmo
          refine ⟨_, heq, rfl, ?_, ?_⟩
          · show toolCallCount
              (st.messages ++ [Msg.ai (gen allToolNames st.messages).1 [tc]]) ≤ 2
            rw [toolCallCount_append]
            have h1 : toolCallCount [Msg.ai (gen allToolNames st.messages).1 [tc]] = 1 := rfl
            omega
          · show st.genCalls + 1 ≤ st.genCalls + (3 - toolCallCount st.messages)
            omega
        · have hregtc : tc.name ∈ allToolNames := by
            have := H4 allToolNames st.messages tc
            rw [hg] at this
            exact this (List.mem_cons_self _ _)
          have hmap := interrupt_handler_no_requests execT
            (dec (st.messages ++ [.ai (gen allToolNames st.messages).1 [tc]]))
            (gen allToolNames st.messages).1 tc hregtc
            (H3 (st.messages ++ [.ai (gen allToolNames st.messages).1 [tc]]) tc)
          rcases hout : interrupt_handler execT
              (dec (st.messages ++ [.ai (gen allToolNames st.messages).1 [tc]]))
              (.ai (gen allToolNames st.messages).1 [tc]) with e | out
          · rw [hout] at hmap
            simp [Except.map] at hmap
          · rw [hout] at hmap
            simp only [Except.map, Except.ok.injEq] at hmap
            obtain ⟨ores, ogoto, oexecs, omem⟩ := out
            have hmap' : toolCallCount ores = 0 := hmap
            have hcnt1 : toolCallCount (st.messages ++
                [Msg.ai (gen allToolNames st.messages).1 [tc]] ++ ores) =
                toolCallCount st.messages + 1 := by
              rw [toolCallCount_append, toolCallCount_append, hmap']
              rfl
            rcases ogoto with _ | _
            · -- goto = llm_call: one more dispatch iteration, then the IH
              have heq := runLoop_succ_dispatch gen dec execT markF email_id n st _
                ores oexecs omem hm (should_continue_append_tool _ _ _ hdone) hout
              obtain ⟨stF, hrun, hdF, hcF, hgF⟩ := ih
                { st with
                  messages := st.messages ++ [.ai (gen allToolNames st.messages).1 [tc]] ++ ores,
                  store := (llm_call gen st.store st.messages).store,
                  execs := st.execs ++ oexecs,
                  memUpdates := st.memUpdates ++ omem,
                  genCalls := st.genCalls + 1 }
                (by show toolCallCount (st.messages ++
                      [Msg.ai (gen allToolNames st.messages).1 [tc]] ++ ores) ≤ 2
                    rw [hcnt1]
                    omega)
                (by show 3 ≤ n + toolCallCount (st.messages ++
                      [Msg.ai (gen allToolNames st.messages).1 [tc]] ++ ores)
                    rw [hcnt1]
                    omega)
              refine ⟨stF, heq.trans hrun, hdF, hcF, ?_⟩
              have hgF2 : stF.genCalls ≤ (st.genCalls + 1) + (3 - toolCallCount (st.messages ++
                  [Msg.ai (gen allToolNames st.messages).1 [tc]] ++ ores)) := hgF
              rw [hcnt1] at hgF2
              omega
            · -- goto = END: the dispatch gate ends the conversation
              have heq := runLoop_succ_dispatch_end gen dec execT markF email_id n st _
                ores oexecs omem hm (should_continue_append_tool _ _ _ hdone) hout
              refine ⟨_, heq, rfl, ?_, ?_⟩
              · show toolCallCount (st.messages ++
                    [Msg.ai (gen allToolNames st.messages).1 [tc]] ++ ores) ≤ 2
                rw [hcnt1]
                omega
              · show st.genCalls + 1 ≤ st.genCalls + (3 - toolCallCount st.messages)
                omega

/-- Witness for the amended C2: a compliant generator that never requests a
tool reaches END in one call. -/
theorem loop_bounded_for_compliant_generator_witness :
    ∃ stF, runLoop (fun _ _ => ("answer", [])) (fun _ _ => ⟨"accept", ""⟩)
        (fun _ _ => "obs") (fun _ => .ok ()) "id" 3
        (initialLoopState (some "respond") [.user "md"] []) = .ok stF ∧
      stF.done = true ∧ toolCallCount stF.messages ≤ 2 ∧
      stF.genCalls ≤ (initialLoopState (some "respond") [.user "md"] []).genCalls +
        (3 - toolCallCount (initialLoopState (some "respond") [.user "md"] []).messages) :=
  loop_bounded_for_compliant_generator (fun _ _ => ("answer", []))
    (fun _ _ => ⟨"accept", ""⟩) (fun _ _ => "obs") (fun _ => .ok ()) "id"
    (fun _ _ => by simp) (fun _ _ tc h => absurd h (List.not_mem_nil tc))
    (fun _ => rfl) (fun _ _ => by simp) 3
    (initialLoopState (some "respond") [.user "md"] []) (by decide) (by decide)

end EmailAssistant
